import Mathlib

/-!
Verification of the Relm4 factory component runtime core, embedded shallowly
from src/relm4/src/factory/builder.rs and src/relm4/src/shutdown/receiver.rs.
-/

set_option autoImplicit false

namespace Relm4

/-! ### Shutdown broadcast primitive

The receiver side is embedded from src/relm4/src/shutdown/receiver.rs.
The notifier side (shutdown::channel and Notifier.shutdown, in
src/relm4/src/shutdown/mod.rs and notifier.rs) is not under src/, so it is
modelled from the spec; the underlying async_broadcast channel is an external
collaborator modelled from its documented interface.
-/

/-- Channel-level state of the shutdown broadcast: whether the notifier
(the single sender) is still alive, and whether it has fired. -/
structure ShutdownState where
  notifierAlive : Bool
  fired : Bool
  deriving Repr, DecidableEq

/-- A shutdown receiver, as in receiver.rs: a broadcast receiver with a local
queue of pending unit messages. -/
structure ShutdownReceiver where
  queued : Nat
  deriving Repr, DecidableEq

/-- Cloning a receiver (receiver.rs, impl Clone): the clone shares the
position of the original, so it holds the same pending messages. -/
def ShutdownReceiver.clone (r : ShutdownReceiver) : ShutdownReceiver :=
  { queued := r.queued }

/-- Modelled from the spec: shutdown::channel in src/relm4/src/shutdown is
not under src/. The freshly created channel has a live notifier that has not
fired, and its receivers start with empty queues. -/
def shutdownChannelState : ShutdownState :=
  { notifierAlive := true, fired := false }

/-- Modelled from the spec: Notifier.shutdown in src/relm4/src/shutdown is
not under src/. Firing the broadcast delivers exactly one unit message to
every outstanding receiver and consumes the notifier. -/
def shutdownFire (rs : List ShutdownReceiver) :
    ShutdownState × List ShutdownReceiver :=
  (⟨false, true⟩, rs.map fun r => ⟨r.queued + 1⟩)

/-- Outcome of polling async_broadcast recv once: a message, a closed-channel
error (all senders gone and queue empty), or still pending. -/
inductive RecvOutcome where
  | msg
  | closed
  | pending
  deriving Repr, DecidableEq

/-- The recv of the underlying broadcast channel, an external collaborator:
yields a message if one is queued, errors with Closed if the queue is empty
and the notifier is gone, and otherwise stays pending. -/
def recvOutcome (s : ShutdownState) (r : ShutdownReceiver) : RecvOutcome :=
  if 0 < r.queued then .msg
  else if s.notifierAlive then .pending
  else .closed

/-- ShutdownReceiver.wait from receiver.rs lines 23 to 25: awaits recv and
discards its result, so it resolves with unit both on a message and on the
closed-channel error; some () means the wait resolves, none means it is
still suspended. -/
def waitOutcome (s : ShutdownState) (r : ShutdownReceiver) : Option Unit :=
  match recvOutcome s r with
  | .msg => some ()
  | .closed => some ()
  | .pending => none

/-- Consuming one received message from the local queue of a receiver. -/
def recvConsume (r : ShutdownReceiver) : ShutdownReceiver :=
  ⟨r.queued - 1⟩

/-! ### Forwarding task

Embedded from builder.rs lines 76 to 85: a loop that drains the Output
channel, applies the transform, forwards Some results to the parent sender,
and breaks when the parent send fails; it exits when the Output channel
closes (recv yields None).
-/

/-- Events driving the forwarding task: an Output message arrives, the parent
receiver is dropped, or the Output channel closes. -/
inductive FwdEvent (O : Type) where
  | output (m : O)
  | parentClosed
  | outputClosed

/-- State of the forwarding task: messages delivered so far to the parent,
whether the parent end is still open, and whether the task has returned. -/
structure FwdState (P : Type) where
  delivered : List P
  parentOpen : Bool
  taskDone : Bool

/-- One step of the forwarding task of builder.rs lines 76 to 85. On a
message it applies the transform; a Some result is sent to the parent, and a
failed send (parent closed) breaks the loop; a None result is swallowed. On
channel closure the recv yields None and the while loop exits. -/
def fwdStep {O P : Type} (transform : O → Option P) (s : FwdState P) :
    FwdEvent O → FwdState P
  | .output m =>
    if s.taskDone then s
    else
      match transform m with
      | some p =>
        if s.parentOpen then { s with delivered := s.delivered ++ [p] }
        else { s with taskDone := true }
      | none => s
  | .parentClosed => { s with parentOpen := false }
  | .outputClosed => if s.taskDone then s else { s with taskDone := true }

/-- Running the forwarding task over a sequence of events. -/
def fwdRun {O P : Type} (transform : O → Option P) (s : FwdState P)
    (evs : List (FwdEvent O)) : FwdState P :=
  evs.foldl (fwdStep transform) s

/-! ### Runtime-id slot and burn-notice oneshot

Embedded from builder.rs lines 189 to 200: the runtime id is stored in an
Rc of RefCell of Option, and the destruction callback takes the slot and, if
it was still occupied, sends the id through the async_oneshot burn notifier,
discarding the send result. The explicit cancel path of the handle lives in
src/relm4/src/factory/handle.rs, which is not under src/; per the spec it
takes the same slot and delivers the identity through the same one-shot
path, so both paths share one definition here.
-/

/-- Combined state of the runtime-id slot and the burn-notice oneshot
channel: the Option slot, whether the oneshot receiver (held by the runtime
loop) is still alive, and the ids successfully delivered through the
oneshot. -/
structure HandleState where
  runtime_id : Option Nat
  burnReceiverAlive : Bool
  burnSent : List Nat
  deriving Repr, DecidableEq

/-- Sending on the async_oneshot burn notifier: succeeds only if the
receiver is still alive and nothing has been sent yet, returning the new
state together with a success flag. -/
def oneshotSend (h : HandleState) (id : Nat) : HandleState × Bool :=
  if h.burnReceiverAlive && h.burnSent.isEmpty then
    ({ h with burnSent := h.burnSent ++ [id] }, true)
  else (h, false)

/-- Shared body of the destruction callback (builder.rs lines 196 to 200)
and of the explicit cancel path: take the slot, and if it still held the id,
send it through the oneshot, discarding the send result. -/
def takeAndSend (h : HandleState) : HandleState :=
  match h.runtime_id with
  | none => h
  | some id => (oneshotSend { h with runtime_id := none } id).1

/-- The on_destroy callback registered on the root widget in builder.rs
lines 196 to 200. -/
def onDestroyCallback (h : HandleState) : HandleState :=
  takeAndSend h

/-- Modelled from the spec: FactoryHandle and its explicit cancel path in
src/relm4/src/factory/handle.rs are not under src/. Per the spec, cancel
takes the slot and, if still Some, delivers the identity through the same
one-shot path the destruction callback uses. -/
def handleCancel (h : HandleState) : HandleState :=
  takeAndSend h

/-- The two operations that can consume the runtime-id slot. -/
inductive HandleOp where
  | cancel
  | destroy
  deriving Repr, DecidableEq

/-- Applying one slot-consuming operation. -/
def applyOp (h : HandleState) : HandleOp → HandleState
  | .cancel => handleCancel h
  | .destroy => onDestroyCallback h

/-- Applying an arbitrary sequence of cancel and destroy operations. -/
def runOps (h : HandleState) (ops : List HandleOp) : HandleState :=
  ops.foldl applyOp h

/-! ### The runtime loop

Embedded from builder.rs lines 114 to 187: a loop that race-selects over the
Input receiver, the CommandOutput receiver, the Notifier rendezvous channel
and the one-shot burn notice. The select multiplexer used by the source
(futures select) polls the listed branches in a pseudo-random order each
iteration and runs the body of the first ready one; the poll order is
therefore an explicit parameter of the step function.
-/

/-- The four arms of the select, in listing order. -/
inductive Arm where
  | input
  | cmd
  | notifier
  | burn
  deriving Repr, DecidableEq

/-- The pluggable model capabilities the loop invokes, parameterized over
the model, widgets, Input, CommandOutput and command-descriptor types.
Sender arguments are omitted: they are the fixed loop-owned senders. -/
structure Caps (M W I CO Cmd : Type) where
  update_with_view : M → W → I → M × W × Option Cmd
  update_cmd_with_view : M → W → CO → M × W
  update_view : M → W → W
  shutdownCap : M → W → M × W

/-- State of the runtime loop, including its observable history: commands
spawned so far (with the channel identities of the shutdown receiver clone
and command-output sender clone they were handed), whether the death
notifier fired, the source ids removed, and how often the shutdown
capability has been invoked. -/
structure RtState (M W I CO Cmd : Type) where
  model : M
  widgets : W
  inputQ : List I
  inputClosed : Bool
  cmdQ : List CO
  cmdClosed : Bool
  notifierQ : Nat
  burn : Option (Except Unit Nat)
  terminated : Bool
  spawned : List (Cmd × Nat × Nat)
  deathChan : Nat
  cmdChan : Nat
  deathFired : Bool
  removedIds : List Nat
  shutdownCount : Nat

/-- Observable effects produced by one branch body, in execution order. -/
inductive RtEffect (Cmd : Type) where
  | updateWithView
  | spawnCommand (c : Cmd) (deathChan cmdChan : Nat)
  | updateCmdWithView
  | updateView
  | shutdownInvoked
  | deathNotifierFired
  | sourceIdRemoved (id : Nat)

/-- Polling the Input receiver: some (some m) is a ready message, some none
is ready-with-None (channel closed and drained), none is pending. -/
def recvInput {M W I CO Cmd : Type} (s : RtState M W I CO Cmd) :
    Option (Option I) :=
  match s.inputQ with
  | m :: _ => some (some m)
  | [] => if s.inputClosed then some none else none

/-- Polling the CommandOutput receiver, with the same convention. -/
def recvCmd {M W I CO Cmd : Type} (s : RtState M W I CO Cmd) :
    Option (Option CO) :=
  match s.cmdQ with
  | m :: _ => some (some m)
  | [] => if s.cmdClosed then some none else none

/-- Readiness of each select arm. -/
def armReady {M W I CO Cmd : Type} (s : RtState M W I CO Cmd) : Arm → Bool
  | .input => (recvInput s).isSome
  | .cmd => (recvCmd s).isSome
  | .notifier => decide (0 < s.notifierQ)
  | .burn => s.burn.isSome

/-- The select multiplexer: polls the arms in the given order and picks the
first ready one; none if every arm is pending. -/
def selectArm {M W I CO Cmd : Type} (s : RtState M W I CO Cmd)
    (pollOrder : List Arm) : Option Arm :=
  pollOrder.find? (armReady s)

/-- The body of one select arm, from builder.rs lines 125 to 185, returning
the successor state and the effects in execution order. The input arm pops a
message, runs update_with_view and spawns a requested command with clones of
the death receiver and the CommandOutput sender; a None from a closed
channel falls through the if-let. The cmd arm runs update_cmd_with_view and
spawns nothing. The notifier arm runs update_view. The burn arm runs the
shutdown capability, fires the death notifier, removes a carried source id,
and terminates the loop. -/
def runArm {M W I CO Cmd : Type} (caps : Caps M W I CO Cmd)
    (s : RtState M W I CO Cmd) :
    Arm → RtState M W I CO Cmd × List (RtEffect Cmd)
  | .input =>
    match s.inputQ with
    | [] => (s, [])
    | m :: rest =>
      let r := caps.update_with_view s.model s.widgets m
      match r.2.2 with
      | some c =>
        ({ s with inputQ := rest, model := r.1, widgets := r.2.1,
                  spawned := s.spawned ++ [(c, s.deathChan, s.cmdChan)] },
         [.updateWithView, .spawnCommand c s.deathChan s.cmdChan])
      | none =>
        ({ s with inputQ := rest, model := r.1, widgets := r.2.1 },
         [.updateWithView])
  | .cmd =>
    match s.cmdQ with
    | [] => (s, [])
    | m :: rest =>
      let r := caps.update_cmd_with_view s.model s.widgets m
      ({ s with cmdQ := rest, model := r.1, widgets := r.2 },
       [.updateCmdWithView])
  | .notifier =>
    if 0 < s.notifierQ then
      ({ s with notifierQ := s.notifierQ - 1,
                widgets := caps.update_view s.model s.widgets },
       [.updateView])
    else (s, [])
  | .burn =>
    match s.burn with
    | none => (s, [])
    | some payload =>
      let r := caps.shutdownCap s.model s.widgets
      ({ s with model := r.1, widgets := r.2, burn := none,
                deathFired := true,
                removedIds := s.removedIds ++
                  (match payload with | .ok id => [id] | .error _ => []),
                shutdownCount := s.shutdownCount + 1,
                terminated := true },
       [.shutdownInvoked, .deathNotifierFired] ++
         (match payload with
          | .ok id => [.sourceIdRemoved id]
          | .error _ => []))

/-- One iteration of the loop under a given poll order: a terminated loop
takes no further step, and if no arm is ready the loop stays suspended. -/
def step {M W I CO Cmd : Type} (caps : Caps M W I CO Cmd)
    (s : RtState M W I CO Cmd) (pollOrder : List Arm) :
    RtState M W I CO Cmd × List (RtEffect Cmd) :=
  if s.terminated then (s, [])
  else
    match selectArm s pollOrder with
    | none => (s, [])
    | some a => runArm caps s a

/-- Running the loop over a schedule of poll orders. -/
def runLoop {M W I CO Cmd : Type} (caps : Caps M W I CO Cmd) :
    RtState M W I CO Cmd → List (List Arm) → RtState M W I CO Cmd
  | s, [] => s
  | s, po :: rest => runLoop caps (step caps s po).1 rest

/-- The listing order of the four arms in the source select block. -/
def listingOrder : List Arm :=
  [.input, .cmd, .notifier, .burn]

/-! ### Builder construction

Embedded from builder.rs lines 34 to 54, FactoryBuilder::new: create the
Input and Output channel pairs, invoke init_model with the parameters, the
index and both senders, invoke init_root on the resulting component, and
return the struct of model, root widget and the four channel endpoints.
Channels are modelled by numeric identities; a sender and receiver of the
same pair share one identity.
-/

/-- Events observable during construction, in order. -/
inductive BuildEvent where
  | channelCreated (chan : Nat)
  | initModelInvoked
  | initRootInvoked
  | taskSpawned
  deriving Repr, DecidableEq

/-- The pluggable capabilities FactoryBuilder::new invokes: init_model gets
the parameters, the index, and the identities of the Input and Output
senders; init_root gets the model. -/
structure BuildCaps (P Ix M R : Type) where
  init_model : P → Ix → Nat → Nat → M
  init_root : M → R

/-- The value FactoryBuilder::new returns, together with the trace of
construction events. -/
structure BuiltFactory (M R : Type) where
  data : M
  root_widget : R
  input_tx : Nat
  input_rx : Nat
  output_tx : Nat
  output_rx : Nat
  events : List BuildEvent

/-- FactoryBuilder::new from builder.rs lines 34 to 54. -/
def factoryBuilderNew {P Ix M R : Type} (caps : BuildCaps P Ix M R)
    (index : Ix) (params : P) : BuiltFactory M R :=
  let inputChan := 0
  let outputChan := 1
  let component := caps.init_model params index inputChan outputChan
  let rootWidget := caps.init_root component
  { data := component
    root_widget := rootWidget
    input_tx := inputChan
    input_rx := inputChan
    output_tx := outputChan
    output_rx := outputChan
    events := [.channelCreated inputChan, .channelCreated outputChan,
               .initModelInvoked, .initRootInvoked] }

/-! ### Concrete instances used to exhibit witnesses and counterexamples -/

/-- A concrete capability instance over Nat states. -/
def capsW : Caps Nat Nat Nat Nat Nat :=
  { update_with_view := fun m w i => (m + i, w + 1, some i)
    update_cmd_with_view := fun m w c => (m * 10 + c, w)
    update_view := fun m w => w + m
    shutdownCap := fun m w => (m + 100, w) }

/-- A concrete capability instance whose model records which update ran. -/
def capsTrace : Caps (List Nat) Nat Nat Nat Unit :=
  { update_with_view := fun m w i => (m ++ [i], w, none)
    update_cmd_with_view := fun m w c => (m ++ [100 + c], w)
    update_view := fun _ w => w
    shutdownCap := fun m w => (m, w) }

/-- A concrete loop state with one Input and one CommandOutput message ready
and a pending burn notice. -/
def sW : RtState Nat Nat Nat Nat Nat :=
  { model := 0, widgets := 0
    inputQ := [7], inputClosed := false
    cmdQ := [3], cmdClosed := false
    notifierQ := 0, burn := some (.ok 5)
    terminated := false, spawned := []
    deathChan := 11, cmdChan := 12
    deathFired := false, removedIds := [], shutdownCount := 0 }

/-- A concrete loop state with one Input and one CommandOutput message
simultaneously ready and no other arm ready. -/
def sTie : RtState (List Nat) Nat Nat Nat Unit :=
  { model := [], widgets := 0
    inputQ := [1], inputClosed := false
    cmdQ := [2], cmdClosed := false
    notifierQ := 0, burn := none
    terminated := false, spawned := []
    deathChan := 11, cmdChan := 12
    deathFired := false, removedIds := [], shutdownCount := 0 }

/-- A concrete loop state whose Input and CommandOutput channels are both
closed and drained, with a pending notification and no burn notice. -/
def sClosed : RtState Nat Nat Nat Nat Nat :=
  { model := 0, widgets := 0
    inputQ := [], inputClosed := true
    cmdQ := [], cmdClosed := true
    notifierQ := 1, burn := none
    terminated := false, spawned := []
    deathChan := 11, cmdChan := 12
    deathFired := false, removedIds := [], shutdownCount := 0 }

/-- A handle state holding a live runtime id with a live burn receiver. -/
def hLive : HandleState :=
  { runtime_id := some 5, burnReceiverAlive := true, burnSent := [] }

/-- A handle state holding a runtime id whose burn receiver is gone. -/
def hDead : HandleState :=
  { runtime_id := some 5, burnReceiverAlive := false, burnSent := [] }

/-- A concrete output transform: even messages map to Some, odd to None. -/
def transformW (n : Nat) : Option Nat :=
  if n % 2 = 0 then some (n + 10) else none

/-- The starting state of the forwarding task. -/
def fwd0 : FwdState Nat :=
  { delivered := [], parentOpen := true, taskDone := false }

/-- Three shutdown receivers cloned before the notifier fires. -/
def rsW : List ShutdownReceiver :=
  [⟨0⟩, ⟨0⟩, ⟨0⟩]

/-! ### Helper lemmas -/

/-- Every arm other than the burn arm preserves the terminated flag and the
count of shutdown-capability invocations. -/
theorem runArm_preserves {M W I CO Cmd : Type} (caps : Caps M W I CO Cmd)
    (s : RtState M W I CO Cmd) (a : Arm) (hne : a ≠ Arm.burn) :
    (runArm caps s a).1.terminated = s.terminated ∧
    (runArm caps s a).1.shutdownCount = s.shutdownCount := by
  cases a with
  | burn => exact absurd rfl hne
  | input =>
    cases hq : s.inputQ with
    | nil => simp [runArm, hq]
    | cons m rest =>
      cases hr : (caps.update_with_view s.model s.widgets m).2.2 <;>
        simp [runArm, hq, hr]
  | cmd =>
    cases hq : s.cmdQ with
    | nil => simp [runArm, hq]
    | cons m rest => simp [runArm, hq]
  | notifier =>
    by_cases hn : 0 < s.notifierQ <;> simp [runArm, hn]

/-- A terminated loop takes no further step. -/
theorem runLoop_terminated {M W I CO Cmd : Type} (caps : Caps M W I CO Cmd) :
    ∀ (scheds : List (List Arm)) (s : RtState M W I CO Cmd),
      s.terminated = true → runLoop caps s scheds = s
  | [], _, _ => rfl
  | po :: rest, s, ht => by
    have h1 : (step caps s po).1 = s := by simp [step, ht]
    show runLoop caps (step caps s po).1 rest = s
    rw [h1]
    exact runLoop_terminated caps rest s ht

/-- Along any schedule, a loop that has not yet invoked the shutdown
capability invokes it at most once. -/
theorem shutdownCount_le_one {M W I CO Cmd : Type} (caps : Caps M W I CO Cmd) :
    ∀ (scheds : List (List Arm)) (s : RtState M W I CO Cmd),
      s.terminated = false → s.shutdownCount = 0 →
      (runLoop caps s scheds).shutdownCount ≤ 1
  | [], s, _, hc => by simp [runLoop, hc]
  | po :: rest, s, ht, hc => by
    show (runLoop caps (step caps s po).1 rest).shutdownCount ≤ 1
    rcases hsel : selectArm s po with _ | a
    · rw [show (step caps s po).1 = s by simp [step, ht, hsel]]
      exact shutdownCount_le_one caps rest s ht hc
    · have hstep : (step caps s po).1 = (runArm caps s a).1 := by
        simp [step, ht, hsel]
      rw [hstep]
      by_cases hb : a = Arm.burn
      · subst hb
        cases hburn : s.burn with
        | none =>
          rw [show (runArm caps s Arm.burn).1 = s by simp [runArm, hburn]]
          exact shutdownCount_le_one caps rest s ht hc
        | some p =>
          have hterm1 : (runArm caps s Arm.burn).1.terminated = true := by
            simp [runArm, hburn]
          rw [runLoop_terminated caps rest _ hterm1]
          simp [runArm, hburn, hc]
      · obtain ⟨h1, h2⟩ := runArm_preserves caps s a hb
        exact shutdownCount_le_one caps rest _ (h1.trans ht) (h2.trans hc)

/-- A sequence of slot operations on a state whose slot is empty changes
nothing. -/
theorem runOps_none :
    ∀ (ops : List HandleOp) (h : HandleState),
      h.runtime_id = none → runOps h ops = h
  | [], _, _ => rfl
  | op :: rest, h, hn => by
    have h1 : applyOp h op = h := by
      cases op <;>
        simp [applyOp, handleCancel, onDestroyCallback, takeAndSend, hn]
    show runOps (applyOp h op) rest = h
    rw [h1]
    exact runOps_none rest h hn

/-- The forwarding task run over a pure message sequence with the parent
open delivers exactly the transformed messages, in order. -/
theorem fwdRun_outputs {O P : Type} (transform : O → Option P) :
    ∀ (msgs : List O) (s0 : FwdState P),
      s0.parentOpen = true → s0.taskDone = false →
      (fwdRun transform s0 (msgs.map FwdEvent.output)).delivered
        = s0.delivered ++ msgs.filterMap transform
  | [], s0, _, _ => by simp [fwdRun]
  | m :: ms, s0, hopen, hdone => by
    show (fwdRun transform (fwdStep transform s0 (FwdEvent.output m))
            (ms.map FwdEvent.output)).delivered = _
    cases htm : transform m with
    | some p =>
      have hstep : fwdStep transform s0 (FwdEvent.output m)
          = { s0 with delivered := s0.delivered ++ [p] } := by
        simp [fwdStep, hdone, htm, hopen]
      rw [hstep,
        fwdRun_outputs transform ms { s0 with delivered := s0.delivered ++ [p] }
          hopen hdone]
      simp [List.filterMap_cons, htm]
    | none =>
      have hstep : fwdStep transform s0 (FwdEvent.output m) = s0 := by
        simp [fwdStep, hdone, htm]
      rw [hstep, fwdRun_outputs transform ms s0 hopen hdone,
        List.filterMap_cons, htm]

/-! ### Claims -/

/-- Claim C3: firing the shutdown broadcast delivers exactly one wake to
each of the receivers cloned before the firing, so each of their waits
resolves; after consuming the single wake no second message remains (only
the closed-channel resolution), and any receiver cloned after the firing
resolves immediately. -/
theorem C3_broadcast_fanout (rs : List ShutdownReceiver)
    (h : ∀ r ∈ rs, r.queued = 0) :
    (shutdownFire rs).2.length = rs.length ∧
    (∀ r' ∈ (shutdownFire rs).2,
      r'.queued = 1 ∧
      waitOutcome (shutdownFire rs).1 r' = some () ∧
      recvOutcome (shutdownFire rs).1 (recvConsume r') = RecvOutcome.closed) ∧
    (∀ r' ∈ (shutdownFire rs).2,
      waitOutcome (shutdownFire rs).1 r'.clone = some ()) := by
  refine ⟨by simp [shutdownFire], ?_, ?_⟩
  · intro r' hr'
    simp only [shutdownFire, List.mem_map] at hr'
    obtain ⟨r, hr, rfl⟩ := hr'
    have hq := h r hr
    refine ⟨by simp [hq], ?_, ?_⟩
    · simp [shutdownFire, waitOutcome, recvOutcome, hq]
    · simp [shutdownFire, recvOutcome, recvConsume, hq]
  · intro r' hr'
    simp only [shutdownFire, List.mem_map] at hr'
    obtain ⟨r, hr, rfl⟩ := hr'
    have hq := h r hr
    simp [shutdownFire, waitOutcome, recvOutcome, ShutdownReceiver.clone, hq]

/-- Witness for claim C3 at a concrete post-fire receiver. -/
theorem C3_broadcast_fanout_wit :
    waitOutcome (shutdownFire rsW).1 ⟨1⟩ = some () :=
  ((C3_broadcast_fanout rsW (by decide)).2.1 ⟨1⟩ (by decide)).2.1

/-- Claim C6: wait resolves with unit both when the broadcast has delivered
a message and when the notifier is gone without firing (the orphaned case);
the closed-channel error of the underlying recv is discarded, so wait never
propagates a failure. -/
theorem C6_wait_resolves (s : ShutdownState) (r : ShutdownReceiver)
    (h : s.notifierAlive = false ∨ 0 < r.queued) :
    waitOutcome s r = some () := by
  rcases h with h | h
  · by_cases hq : 0 < r.queued <;> simp [waitOutcome, recvOutcome, h, hq]
  · simp [waitOutcome, recvOutcome, h]

/-- Witness for claim C6 at a concrete orphaned receiver. -/
theorem C6_wait_resolves_wit :
    waitOutcome ⟨false, false⟩ ⟨0⟩ = some () :=
  C6_wait_resolves ⟨false, false⟩ ⟨0⟩ (Or.inl rfl)

/-- Claim C5: over any sequence of Output messages with the parent open, the
forwarding task delivers exactly the non-None transforms, in order; the task
returns when the Output channel closes, and a failed parent send makes it
break without delivering. -/
theorem C5_forwarding_transform {O P : Type} (transform : O → Option P)
    (msgs : List O) (s0 : FwdState P)
    (hopen : s0.parentOpen = true) (hdone : s0.taskDone = false) :
    (fwdRun transform s0 (msgs.map FwdEvent.output)).delivered
        = s0.delivered ++ msgs.filterMap transform ∧
    (∀ s : FwdState P, s.taskDone = false →
        (fwdStep transform s FwdEvent.outputClosed).taskDone = true) ∧
    (∀ (s : FwdState P) (m : O) (p : P), s.parentOpen = false →
        s.taskDone = false → transform m = some p →
        fwdStep transform s (FwdEvent.output m) = { s with taskDone := true }) := by
  refine ⟨fwdRun_outputs transform msgs s0 hopen hdone, ?_, ?_⟩
  · intro s hs
    simp [fwdStep, hs]
  · intro s m p hpo hs htm
    simp [fwdStep, hs, htm, hpo]

/-- Witness for claim C5: message 2 maps to Some 12 and message 3 to None,
so exactly one parent message is delivered. -/
theorem C5_forwarding_transform_wit :
    (fwdRun transformW fwd0 ([2, 3].map FwdEvent.output)).delivered
      = fwd0.delivered ++ [2, 3].filterMap transformW :=
  (C5_forwarding_transform transformW [2, 3] fwd0 rfl rfl).1

/-- Claim C1: the runtime-id slot is consumed at most once — any nonempty
sequence of cancel and destroy operations empties the slot with exactly one
oneshot delivery (when the receiver is alive), at most one identity is ever
delivered, an operation on an emptied slot is a no-op, and along any loop
schedule the shutdown capability is invoked at most once. -/
theorem C1_at_most_once_termination (id : Nat) (alive : Bool)
    (ops : List HandleOp) (op : HandleOp) (h : HandleState)
    (hslot : h.runtime_id = none)
    {M W I CO Cmd : Type} (caps : Caps M W I CO Cmd)
    (s : RtState M W I CO Cmd) (scheds : List (List Arm))
    (hterm : s.terminated = false) (hcount : s.shutdownCount = 0) :
    (runOps ⟨some id, alive, []⟩ ops).burnSent.length ≤ 1 ∧
    (ops ≠ [] → runOps ⟨some id, alive, []⟩ ops
        = ⟨none, alive, if alive then [id] else []⟩) ∧
    applyOp h op = h ∧
    (runLoop caps s scheds).shutdownCount ≤ 1 := by
  have hnoop : applyOp h op = h := by
    cases op <;>
      simp [applyOp, handleCancel, onDestroyCallback, takeAndSend, hslot]
  have hfirst : ∀ o : HandleOp, applyOp ⟨some id, alive, []⟩ o
      = ⟨none, alive, if alive then [id] else []⟩ := by
    intro o
    cases o <;> cases alive <;>
      simp [applyOp, handleCancel, onDestroyCallback, takeAndSend, oneshotSend]
  have hrun : ops ≠ [] → runOps ⟨some id, alive, []⟩ ops
      = ⟨none, alive, if alive then [id] else []⟩ := by
    intro hne
    cases ops with
    | nil => exact absurd rfl hne
    | cons o rest =>
      show runOps (applyOp ⟨some id, alive, []⟩ o) rest = _
      rw [hfirst o]
      exact runOps_none rest _ rfl
  refine ⟨?_, hrun, hnoop, shutdownCount_le_one caps scheds s hterm hcount⟩
  cases ops with
  | nil => simp [runOps]
  | cons o rest =>
    rw [hrun (by simp)]
    cases alive <;> simp

/-- Witness for claim C1: destroy followed by cancel delivers exactly one
identity. -/
theorem C1_at_most_once_termination_wit :
    (runOps ⟨some 5, true, []⟩ [HandleOp.destroy, HandleOp.cancel]).burnSent.length ≤ 1 :=
  (C1_at_most_once_termination 5 true [HandleOp.destroy, HandleOp.cancel]
    HandleOp.cancel ⟨none, true, [5]⟩ rfl capsW sW [] rfl rfl).1

/-- Counterexample to claim C2 as stated: with an Input and a CommandOutput
message simultaneously ready, the select multiplexer of the source polls the
arms in a pseudo-random order, and under the order that polls the command
arm first the CommandOutput branch is selected and its mutation applied
first, not the Input branch. -/
theorem C2_priority_counterexample :
    armReady sTie Arm.input = true ∧
    armReady sTie Arm.cmd = true ∧
    selectArm sTie [Arm.cmd, Arm.input, Arm.notifier, Arm.burn]
        ≠ some Arm.input ∧
    (step capsTrace sTie [Arm.cmd, Arm.input, Arm.notifier, Arm.burn]).1.model
        = [102] := by
  refine ⟨rfl, rfl, by decide, rfl⟩

/-- Claim C2 as amended: the branch selected in an iteration is the first
ready arm in the poll order the multiplexer chose pseudo-randomly for that
iteration; when that order is the listing order Input, CommandOutput,
Notifier, destruction, simultaneously ready Input and CommandOutput messages
resolve to the Input branch, whose model mutation is applied first. -/
theorem C2_priority_listing_order {M W I CO Cmd : Type}
    (caps : Caps M W I CO Cmd) (s : RtState M W I CO Cmd)
    (m : I) (irest : List I) (c : CO) (crest : List CO)
    (hq : s.inputQ = m :: irest) (_hc : s.cmdQ = c :: crest)
    (hterm : s.terminated = false) :
    selectArm s listingOrder = some Arm.input ∧
    step caps s listingOrder = runArm caps s Arm.input ∧
    (step caps s listingOrder).1.model
        = (caps.update_with_view s.model s.widgets m).1 ∧
    (step caps s listingOrder).2.head? = some RtEffect.updateWithView := by
  have hsel : selectArm s listingOrder = some Arm.input := by
    simp [selectArm, listingOrder, List.find?, armReady, recvInput, hq]
  have hstep : step caps s listingOrder = runArm caps s Arm.input := by
    simp [step, hterm, hsel]
  refine ⟨hsel, hstep, ?_, ?_⟩
  · rw [hstep]
    cases hr : (caps.update_with_view s.model s.widgets m).2.2 <;>
      simp [runArm, hq, hr]
  · rw [hstep]
    cases hr : (caps.update_with_view s.model s.widgets m).2.2 <;>
      simp [runArm, hq, hr]

/-- Witness for the amended claim C2 at a concrete tied state. -/
theorem C2_priority_listing_order_wit :
    selectArm sW listingOrder = some Arm.input :=
  (C2_priority_listing_order capsW sW 7 [] 3 [] rfl rfl rfl).1

/-- Claim C4: when the burn notice has fired, the destruction branch invokes
the shutdown capability, fires the death notifier, removes a carried source
id, in that order, and terminates the loop; no other arm can set the
terminated flag. -/
theorem C4_destruction_branch {M W I CO Cmd : Type} (caps : Caps M W I CO Cmd)
    (s : RtState M W I CO Cmd) (p : Except Unit Nat) (hb : s.burn = some p) :
    (runArm caps s Arm.burn).2
        = [RtEffect.shutdownInvoked, RtEffect.deathNotifierFired] ++
          (match p with
           | .ok id => [RtEffect.sourceIdRemoved id]
           | .error _ => ([] : List (RtEffect Cmd))) ∧
    (runArm caps s Arm.burn).1.model = (caps.shutdownCap s.model s.widgets).1 ∧
    (runArm caps s Arm.burn).1.deathFired = true ∧
    (runArm caps s Arm.burn).1.terminated = true ∧
    (∀ (s' : RtState M W I CO Cmd) (a : Arm), s'.terminated = false →
        (runArm caps s' a).1.terminated = true → a = Arm.burn) := by
  refine ⟨by simp [runArm, hb], by simp [runArm, hb], by simp [runArm, hb],
          by simp [runArm, hb], ?_⟩
  intro s' a h1 h2
  by_contra hne
  obtain ⟨hp, -⟩ := runArm_preserves caps s' a hne
  rw [hp, h1] at h2
  exact Bool.false_ne_true h2

/-- Witness for claim C4 at a concrete state with a fired burn notice. -/
theorem C4_destruction_branch_wit :
    (runArm capsW sW Arm.burn).1.terminated = true :=
  (C4_destruction_branch capsW sW (Except.ok 5) rfl).2.2.2.1

/-- Claim C7: with the Input and CommandOutput channels closed and drained,
both arms are ready with a None message, their bodies change nothing, and no
step of the loop terminates it while the burn notice is absent. -/
theorem C7_closed_channels {M W I CO Cmd : Type} (caps : Caps M W I CO Cmd)
    (s : RtState M W I CO Cmd) (hterm : s.terminated = false)
    (hiq : s.inputQ = []) (hic : s.inputClosed = true)
    (hcq : s.cmdQ = []) (hcc : s.cmdClosed = true)
    (hb : s.burn = none) :
    armReady s Arm.input = true ∧
    armReady s Arm.cmd = true ∧
    runArm caps s Arm.input = (s, []) ∧
    runArm caps s Arm.cmd = (s, []) ∧
    (∀ po : List Arm, (step caps s po).1.terminated = false) := by
  refine ⟨by simp [armReady, recvInput, hiq, hic],
          by simp [armReady, recvCmd, hcq, hcc],
          by simp [runArm, hiq], by simp [runArm, hcq], ?_⟩
  intro po
  rcases hsel : selectArm s po with _ | a
  · simp [step, hterm, hsel]
  · have hstep : (step caps s po).1 = (runArm caps s a).1 := by
      simp [step, hterm, hsel]
    rw [hstep]
    cases a with
    | input => simpa [runArm, hiq] using hterm
    | cmd => simpa [runArm, hcq] using hterm
    | notifier =>
      by_cases hn : 0 < s.notifierQ <;> simpa [runArm, hn] using hterm
    | burn => simpa [runArm, hb] using hterm

/-- Witness for claim C7 at a concrete state with closed drained channels. -/
theorem C7_closed_channels_wit :
    runArm capsW sClosed Arm.input = (sClosed, []) :=
  (C7_closed_channels capsW sClosed rfl rfl rfl rfl rfl rfl).2.2.1

/-- Claim C8: the Input branch spawns exactly the command its update yields,
handing it the identities of the death receiver clone and the CommandOutput
sender clone held by the loop, and the CommandOutput branch never changes
the set of spawned commands. -/
theorem C8_command_spawning {M W I CO Cmd : Type} (caps : Caps M W I CO Cmd)
    (s : RtState M W I CO Cmd) (m : I) (rest : List I)
    (hq : s.inputQ = m :: rest) :
    (runArm caps s Arm.input).1.spawned
        = s.spawned ++
          (match (caps.update_with_view s.model s.widgets m).2.2 with
           | some c => [(c, s.deathChan, s.cmdChan)]
           | none => []) ∧
    (∀ s' : RtState M W I CO Cmd,
        (runArm caps s' Arm.cmd).1.spawned = s'.spawned) := by
  constructor
  · cases hr : (caps.update_with_view s.model s.widgets m).2.2 <;>
      simp [runArm, hq, hr]
  · intro s'
    cases hcq : s'.cmdQ <;> simp [runArm, hcq]

/-- Witness for claim C8 at a concrete state with one Input message. -/
theorem C8_command_spawning_wit :
    (runArm capsW sW Arm.input).1.spawned
        = sW.spawned ++
          (match (capsW.update_with_view sW.model sW.widgets 7).2.2 with
           | some c => [(c, sW.deathChan, sW.cmdChan)]
           | none => []) :=
  (C8_command_spawning capsW sW 7 [] rfl).1

/-- Claim C9: construction creates the Input and Output channel pairs, then
invokes init_model with the parameters, the index and both senders, then
invokes init_root on the resulting model, and returns the model, root and
the four channel endpoints without spawning any task. -/
theorem C9_builder_new {P Ix M R : Type} (caps : BuildCaps P Ix M R)
    (index : Ix) (params : P) :
    (factoryBuilderNew caps index params).data
        = caps.init_model params index
            (factoryBuilderNew caps index params).input_tx
            (factoryBuilderNew caps index params).output_tx ∧
    (factoryBuilderNew caps index params).root_widget
        = caps.init_root (factoryBuilderNew caps index params).data ∧
    (factoryBuilderNew caps index params).input_rx
        = (factoryBuilderNew caps index params).input_tx ∧
    (factoryBuilderNew caps index params).output_rx
        = (factoryBuilderNew caps index params).output_tx ∧
    (factoryBuilderNew caps index params).input_tx
        ≠ (factoryBuilderNew caps index params).output_tx ∧
    (factoryBuilderNew caps index params).events
        = [BuildEvent.channelCreated 0, BuildEvent.channelCreated 1,
           BuildEvent.initModelInvoked, BuildEvent.initRootInvoked] ∧
    BuildEvent.taskSpawned ∉ (factoryBuilderNew caps index params).events := by
  refine ⟨rfl, rfl, rfl, rfl, by simp [factoryBuilderNew], rfl,
          by simp [factoryBuilderNew]⟩

/-- Claim C10: when the burn-notice receiver is gone, the destruction
callback only empties the slot — the oneshot send fails, the failure is
discarded, and nothing is delivered. -/
theorem C10_dead_receiver_callback (h : HandleState)
    (hdead : h.burnReceiverAlive = false) :
    onDestroyCallback h = { h with runtime_id := none } ∧
    (∀ id : Nat, (oneshotSend h id).2 = false) ∧
    (onDestroyCallback h).burnSent = h.burnSent := by
  obtain ⟨rid, alive, sent⟩ := h
  simp only at hdead
  subst hdead
  cases rid <;>
    simp [onDestroyCallback, takeAndSend, oneshotSend]

/-- Witness for claim C10 at a concrete dead-receiver state. -/
theorem C10_dead_receiver_callback_wit :
    onDestroyCallback hDead = { hDead with runtime_id := none } :=
  (C10_dead_receiver_callback hDead rfl).1

end Relm4
